import Mathlib

/-!
Verification of the safe-operations pre-tool-use hook
(`src/core/hooks/safe-operations.py`).

The development shallowly embeds the Python source: Python strings become
`String`, `os.path` resolution becomes pure functions following the POSIX
`posixpath` semantics, regular-expression scanning becomes a small fueled
backtracking engine over the concrete patterns of the source tables, and
the `try/except` fail-open wrappers become `Option`-valued resolvers.
-/

namespace SafeOps

/-! ### Python string primitives -/

/-- Python `s.startswith(pre)`. -/
def startsWithS (s pre : String) : Bool :=
  pre.data.isPrefixOf s.data

/-- Python `s.endswith(suf)`. -/
def endsWithS (s suf : String) : Bool :=
  suf.data.isSuffixOf s.data

/-- Python `s.rstrip('/')`: drop all trailing slashes. -/
def rstripSlashes (s : String) : String :=
  String.mk ((s.data.reverse.dropWhile (fun c => c == '/')).reverse)

/-- Helper for `splitOnChar`: split the remaining characters at `sep`,
accumulating the current field in reverse. -/
def splitOnCharAux (sep : Char) : List Char → List Char → List String
  | [], acc => [String.mk acc.reverse]
  | c :: cs, acc =>
    if c = sep then String.mk acc.reverse :: splitOnCharAux sep cs []
    else splitOnCharAux sep cs (c :: acc)

/-- Python `s.split(sep)` for a one-character separator (structural, so
that concrete decisions reduce in the kernel). -/
def splitOnChar (sep : Char) (s : String) : List String :=
  splitOnCharAux sep s.data []

/-- Python `'/'.join parts`. -/
def joinSlash : List String → String
  | [] => ""
  | [x] => x
  | x :: xs => x ++ "/" ++ joinSlash xs

/-! ### POSIX path resolution (`os.path` semantics used by the hook)

The hook resolves paths with `os.path.expanduser` followed by
`os.path.abspath`; neither touches the filesystem, they are pure string
normalization (`posixpath` module). -/

/-- Python `posixpath.normpath`: collapse `//`, `.` and `..` components, keeping
the POSIX double-slash root special case. -/
def normpath (p : String) : String :=
  if p = "" then "."
  else
    let slashes : Nat :=
      if startsWithS p "/" then
        if startsWithS p "//" && !(startsWithS p "///") then 2 else 1
      else 0
    let comps := splitOnChar '/' p
    let newComps := comps.foldl
      (fun acc comp =>
        if comp = "" || comp = "." then acc
        else if comp ≠ ".." || (slashes = 0 && acc = []) || (acc.getLast? = some "..") then
          acc ++ [comp]
        else if acc ≠ [] then acc.dropLast
        else acc)
      []
    let out := String.mk (List.replicate slashes '/') ++ joinSlash newComps
    if out = "" then "." else out

/-- Python `posixpath.join cwd p` as used by `abspath` (two-argument form). -/
def joinPath (a b : String) : String :=
  if a = "" then b
  else if endsWithS a "/" then a ++ b
  else a ++ "/" ++ b

/-- Python `posixpath.abspath p` with current working directory `cwd`:
make absolute by joining onto `cwd`, then normalize. -/
def abspathS (cwd p : String) : String :=
  if startsWithS p "/" then normpath p else normpath (joinPath cwd p)

/-- Python `posixpath.expanduser p` with home directory `home`: expand a leading
`~` or `~/...`; a `~user` form has no password database in this model and
is returned unchanged (as Python does when the user is unknown). -/
def expanduserS (home p : String) : String :=
  if !(startsWithS p "~") then p
  else
    let rest := String.mk (p.data.drop 1)
    if rest = "" || startsWithS rest "/" then
      let r := rstripSlashes home ++ rest
      if r = "" then "/" else r
    else p

/-! ### Environment model -/

/-- The read-only process environment consulted by one decision:
the home directory (for `~` expansion), the current working directory
(for `abspath`), and the two overriding environment variables. -/
structure Env where
  home : String
  cwd : String
  claudeProjectDir : Option String
  claudeConfigDir : Option String

/-- Resolution pipeline of the hook for a candidate file path:
`os.path.abspath(os.path.expanduser(p))`. -/
def resolveFile (env : Env) (p : String) : String :=
  abspathS env.cwd (expanduserS env.home p)

/-- The resolved configuration-directory carve-out:
`os.path.abspath(os.path.expanduser(os.environ.get('CLAUDE_CONFIG_DIR', '~/.claude')))`. -/
def resolveCfg (env : Env) : String :=
  abspathS env.cwd (expanduserS env.home ((env.claudeConfigDir).getD "~/.claude"))

/-- A possibly-failing resolver pair: the Python `os.path` calls sit inside
`try/except` blocks, so the embedding threads them as `Option`-valued
functions; `none` models a raised exception. -/
structure Resolver where
  expanduserO : String → Option String
  abspathO : String → Option String

/-- The concrete resolver of the model: pure string normalization that
never raises. -/
def Resolver.ofEnv (env : Env) : Resolver :=
  { expanduserO := fun p => some (expanduserS env.home p)
    abspathO := fun p => some (abspathS env.cwd p) }

/-! ### Protected-Path Classifier (`is_protected_path`) -/

/-- Table `PROTECTED_DIRECTORIES` from the source, in order. -/
def PROTECTED_DIRECTORIES : List String :=
  ["/etc", "/usr", "/var", "/bin", "/sbin", "/lib", "/lib64", "/boot",
   "/sys", "/proc", "/dev", "/root", "/System", "/Library", "/Applications"]

/-- The per-root test of `is_protected_path`:
`abs_path.startswith(protected_dir + os.sep) or abs_path == protected_dir`. -/
def protMatch (abs_path pd : String) : Bool :=
  startsWithS abs_path (pd ++ "/") || abs_path == pd

/-- Function `is_protected_path`, parameterized over the resolver; the `none`
branch is the `except` clause returning `(False, "")`. -/
def is_protected_pathR (R : Resolver) (file_path : String) : Bool × String :=
  match (do
      let e ← R.expanduserO file_path
      let a ← R.abspathO e
      pure a : Option String) with
  | none => (false, "")
  | some abs_path =>
    match PROTECTED_DIRECTORIES.find? (fun pd => protMatch abs_path pd) with
    | some pd => (true, "Cannot modify files in protected directory: " ++ pd)
    | none => (false, "")

/-- Function `is_protected_path` with the concrete resolver. -/
def is_protected_path (env : Env) (file_path : String) : Bool × String :=
  is_protected_pathR (Resolver.ofEnv env) file_path

/-! ### Project-Boundary Checker (`is_path_outside_project`) -/

/-- Function `is_path_outside_project`, parameterized over the resolver; the `none`
branch is the `except` clause returning `False`. The resolution order
follows the source: file, project, then the configuration carve-out. -/
def is_path_outside_projectR (R : Resolver) (cfgEnv : Option String)
    (file_path project_root : String) : Bool :=
  match (do
      let e ← R.expanduserO file_path
      let abs_file ← R.abspathO e
      let abs_project ← R.abspathO project_root
      let cfg ← R.expanduserO (cfgEnv.getD "~/.claude")
      let abs_claude_config ← R.abspathO cfg
      pure (if startsWithS abs_file (abs_claude_config ++ "/") || abs_file == abs_claude_config then
              false
            else if startsWithS abs_file "/tmp/" || startsWithS abs_file "/private/tmp/" then
              false
            else
              !(startsWithS abs_file (abs_project ++ "/")) && abs_file != abs_project)
      : Option Bool) with
  | none => false
  | some b => b

/-- Function `is_path_outside_project` with the concrete resolver. -/
def is_path_outside_project (env : Env) (file_path project_root : String) : Bool :=
  is_path_outside_projectR (Resolver.ofEnv env) env.claudeConfigDir file_path project_root

/-! ### Regular-expression engine

A small backtracking engine covering exactly the constructs used by the
source's patterns: case-insensitive literals (all searches pass
`re.IGNORECASE`), character classes, `.`, concatenation, ordered
alternation, greedy `*`/`+`/`?`, the word boundary `\x62` and capturing
groups. Results are produced in Python's backtracking priority order
(leftmost, greedy, first alternative first), so the head of the result
list is the match Python reports. Recursion is fueled; `fuelFor` exceeds
the maximal backtracking depth, so fuel never runs out. -/

inductive Re where
  | eps : Re
  | lit : Char → Re
  | cls : (Char → Bool) → Re
  | anyc : Re
  | seq : Re → Re → Re
  | alt : Re → Re → Re
  | star : Re → Re
  | plus : Re → Re
  | opt : Re → Re
  | wb : Re
  | grp : Nat → Re → Re

/-- Structural size of a pattern, used only to compute a sufficient fuel. -/
def sizeRe : Re → Nat
  | .eps => 1
  | .lit _ => 1
  | .cls _ => 1
  | .anyc => 1
  | .wb => 1
  | .seq a b => 1 + sizeRe a + sizeRe b
  | .alt a b => 1 + sizeRe a + sizeRe b
  | .star r => 2 + sizeRe r
  | .plus r => 3 + sizeRe r
  | .opt r => 1 + sizeRe r
  | .grp _ r => 1 + sizeRe r

/-- Captured groups of one match: group number paired with captured text. -/
abbrev Caps := List (Nat × String)

/-- Record group `n` as having captured `v` (later bindings shadow earlier). -/
def setCap (n : Nat) (v : String) (caps : Caps) : Caps :=
  (n, v) :: caps.filter (fun c => c.1 ≠ n)

/-- Python `m.group n`: text captured by group `n`, or `""` when absent. -/
def capStr (caps : Caps) (n : Nat) : String :=
  match caps.find? (fun c => c.1 = n) with
  | some c => c.2
  | none => ""

/-- Python `\s` over ASCII. -/
def isSpaceRe (c : Char) : Bool :=
  c = ' ' || c = '\t' || c = '\n' || c = '\r' || c = '\x0b' || c = '\x0c'

/-- Python `\w` over ASCII (for the word boundary). -/
def isWordChar (c : Char) : Bool :=
  c.isAlphanum || c = '_'

/-- Whether position `i` of `s` holds a word character. -/
def wordAt (s : List Char) (i : Nat) : Bool :=
  match s.get? i with
  | some c => isWordChar c
  | none => false

/-- Python `\x62`: a word character on exactly one side of position `i`. -/
def wordBoundary (s : List Char) (i : Nat) : Bool :=
  if i = 0 then wordAt s 0
  else wordAt s (i - 1) != wordAt s i

/-- The text of `s` between positions `i` and `j`. -/
def sliceStr (s : List Char) (i j : Nat) : String :=
  String.mk ((s.drop i).take (j - i))

/-- Backtracking matcher: all ways `re` can match `s` starting at `i`, as
`(end-position, captures)` pairs in Python's priority order. Literal
comparison is case-insensitive (`re.IGNORECASE` is set on every search in
the source). -/
def mre (s : List Char) : Nat → Re → Nat → Caps → List (Nat × Caps)
  | 0, _, _, _ => []
  | _ + 1, .eps, i, caps => [(i, caps)]
  | _ + 1, .lit c, i, caps =>
    match s.get? i with
    | some d => if d.toLower = c.toLower then [(i + 1, caps)] else []
    | none => []
  | _ + 1, .cls p, i, caps =>
    match s.get? i with
    | some d => if p d then [(i + 1, caps)] else []
    | none => []
  | _ + 1, .anyc, i, caps =>
    match s.get? i with
    | some d => if d ≠ '\n' then [(i + 1, caps)] else []
    | none => []
  | fuel + 1, .seq a b, i, caps =>
    (mre s fuel a i caps).flatMap (fun r => mre s fuel b r.1 r.2)
  | fuel + 1, .alt a b, i, caps =>
    mre s fuel a i caps ++ mre s fuel b i caps
  | fuel + 1, .star r, i, caps =>
    ((mre s fuel r i caps).flatMap
      (fun q => if i < q.1 then mre s fuel (.star r) q.1 q.2 else [])) ++ [(i, caps)]
  | fuel + 1, .plus r, i, caps =>
    (mre s fuel r i caps).flatMap (fun q => mre s fuel (.star r) q.1 q.2)
  | fuel + 1, .opt r, i, caps =>
    mre s fuel r i caps ++ [(i, caps)]
  | _ + 1, .wb, i, caps =>
    if wordBoundary s i then [(i, caps)] else []
  | fuel + 1, .grp n r, i, caps =>
    (mre s fuel r i caps).flatMap (fun q => [(q.1, setCap n (sliceStr s i q.1) q.2)])

/-- Fuel bound: strictly larger than any backtracking depth of `r` on `s`. -/
def fuelFor (s : List Char) (r : Re) : Nat :=
  (s.length + 2) * (sizeRe r + 2)

/-- All matches of `r` at position `i` of `s`, best first. -/
def mreAll (s : List Char) (r : Re) (i : Nat) : List (Nat × Caps) :=
  mre s (fuelFor s r) r i []

/-- Python `re.finditer` scan: leftmost non-overlapping matches from `pos` on. -/
def findIterAux (s : List Char) (r : Re) : Nat → Nat → List Caps
  | 0, _ => []
  | fuel + 1, pos =>
    if pos > s.length then []
    else
      match mreAll s r pos with
      | q :: _ => q.2 :: findIterAux s r fuel (if pos < q.1 then q.1 else pos + 1)
      | [] => findIterAux s r fuel (pos + 1)

/-- Python `re.finditer(r, cmd, re.IGNORECASE)`: capture sets of every match. -/
def findIter (r : Re) (cmd : String) : List Caps :=
  findIterAux cmd.data r (cmd.data.length + 2) 0

/-- Python `re.search(r, cmd, re.IGNORECASE) is not None`. -/
def reSearch (r : Re) (cmd : String) : Bool :=
  !(findIter r cmd).isEmpty

/-! ### Pattern tables

Each entry transcribes one regular expression of the source table; the
transcriptions keep the source's order, grouping, greediness and
alternation order. -/

/-- Literal word: sequence of case-insensitive literal characters. -/
def rstr (w : String) : Re :=
  w.data.foldr (fun c acc => Re.seq (Re.lit c) acc) Re.eps

/-- Pattern `\s+`. -/
def ws1 : Re := Re.plus (Re.cls isSpaceRe)

/-- Pattern `\s*`. -/
def ws0 : Re := Re.star (Re.cls isSpaceRe)

/-- Pattern `.*`. -/
def dotStar : Re := Re.star Re.anyc

/-- Class `[^\s;|&><]` — the target-token class of the write/copy patterns. -/
def tokC (c : Char) : Bool :=
  !(isSpaceRe c || c = ';' || c = '|' || c = '&' || c = '>' || c = '<')

/-- Pattern `([^\s;|&><]+)` capturing as group `n`. -/
def tokGrp (n : Nat) : Re := Re.grp n (Re.plus (Re.cls tokC))

/-- Class `[rRfiv]` under `re.IGNORECASE`. -/
def rfivC (c : Char) : Bool :=
  c.toLower = 'r' || c.toLower = 'f' || c.toLower = 'i' || c.toLower = 'v'

/-- Class `[rR]` under `re.IGNORECASE`. -/
def rOnlyC (c : Char) : Bool := c.toLower = 'r'

/-- Class `[a-zA-Z]`. -/
def alphaC (c : Char) : Bool := c.isAlpha

/-- Class `[/\s]`. -/
def slashSpaceC (c : Char) : Bool := c = '/' || isSpaceRe c

/-- Pattern `/(?:etc|usr|var|bin|sbin|lib|boot)` — tail of the chmod/chown patterns. -/
def sysDirTail : Re :=
  Re.seq (Re.lit '/')
    (Re.alt (rstr "etc") (Re.alt (rstr "usr") (Re.alt (rstr "var")
      (Re.alt (rstr "bin") (Re.alt (rstr "sbin") (Re.alt (rstr "lib") (rstr "boot")))))))

/-- Table `DANGEROUS_BASH_PATTERNS` from the source, in order, with the exact
reason strings. -/
def DANGEROUS_BASH_PATTERNS : List (Re × String) :=
  [ (Re.seq Re.wb (Re.seq (rstr "rm") (Re.seq ws1 (Re.seq
       (Re.star (Re.grp 1 (Re.seq (Re.lit '-') (Re.seq (Re.plus (Re.cls rfivC)) ws1))))
       (Re.lit '/')))),
     "Cannot delete files with absolute paths starting from root"),
    (Re.seq Re.wb (Re.seq (rstr "rm") (Re.seq ws1 (Re.seq
       (Re.star (Re.grp 1 (Re.seq (Re.lit '-') (Re.seq (Re.plus (Re.cls rfivC)) ws1))))
       (Re.seq (Re.lit '~') (Re.lit '/'))))),
     "Cannot delete files in home directory via rm"),
    (Re.seq Re.wb (Re.seq (rstr "rm") (Re.seq ws1 (Re.seq dotStar
       (Re.seq (Re.lit '.') (Re.seq (Re.lit '.') (Re.cls slashSpaceC)))))),
     "Cannot use .. in rm commands - potential path traversal"),
    (Re.seq (Re.lit '>') (Re.seq ws0 (rstr "/etc/")), "Cannot redirect output to /etc/"),
    (Re.seq (Re.lit '>') (Re.seq ws0 (rstr "/usr/")), "Cannot redirect output to /usr/"),
    (Re.seq (Re.lit '>') (Re.seq ws0 (rstr "/var/")), "Cannot redirect output to /var/"),
    (Re.seq (Re.lit '>') (Re.seq ws0 (rstr "/bin/")), "Cannot redirect output to /bin/"),
    (Re.seq (Re.lit '>') (Re.seq ws0 (rstr "/sbin/")), "Cannot redirect output to /sbin/"),
    (Re.seq (Re.lit '>') (Re.seq ws0 (rstr "/lib/")), "Cannot redirect output to /lib/"),
    (Re.seq (Re.lit '>') (Re.seq ws0 (rstr "/boot/")), "Cannot redirect output to /boot/"),
    (Re.seq (Re.lit '>') (Re.seq ws0 (rstr "/sys/")), "Cannot redirect output to /sys/"),
    (Re.seq (Re.lit '>') (Re.seq ws0 (rstr "/proc/")), "Cannot redirect output to /proc/"),
    (Re.seq (Re.lit '>') (Re.seq ws0 (rstr "/root/")), "Cannot redirect output to /root/"),
    (Re.seq Re.wb (Re.seq (rstr "chmod") (Re.seq ws1 (Re.seq dotStar (Re.seq ws1 sysDirTail)))),
     "Cannot chmod system directories"),
    (Re.seq Re.wb (Re.seq (rstr "chown") (Re.seq ws1 (Re.seq dotStar (Re.seq ws1 sysDirTail)))),
     "Cannot chown system directories"),
    (Re.seq Re.wb (Re.seq (rstr "dd") (Re.seq ws1 (Re.seq dotStar (rstr "of=/dev/")))),
     "Cannot write directly to devices with dd"),
    (Re.seq Re.wb (Re.seq (rstr "mkfs") Re.wb), "Cannot create filesystems"),
    (Re.seq Re.wb (Re.seq (rstr "fdisk") Re.wb), "Cannot modify disk partitions"),
    (Re.seq Re.wb (Re.seq (rstr "parted") Re.wb), "Cannot modify disk partitions"),
    (Re.seq Re.wb (Re.seq (rstr "killall") (Re.seq ws1 (Re.seq (rstr "-9") ws1))),
     "Cannot use killall -9"),
    (Re.seq Re.wb (Re.seq (rstr "pkill") (Re.seq ws1 (Re.seq (rstr "-9") ws1))),
     "Cannot use pkill -9"),
    (Re.seq Re.wb (Re.seq (rstr "systemctl") (Re.seq ws1 (Re.seq
       (Re.grp 1 (Re.alt (rstr "stop") (Re.alt (rstr "disable") (rstr "mask")))) ws1))),
     "Cannot stop/disable system services"),
    (Re.seq Re.wb (Re.seq (rstr "launchctl") (Re.seq ws1 (Re.seq
       (Re.grp 1 (Re.alt (rstr "unload") (rstr "remove"))) ws1))),
     "Cannot unload system services (macOS)"),
    (Re.seq Re.wb (Re.seq (rstr "iptables") (Re.seq ws1 (Re.seq dotStar (rstr "-F")))),
     "Cannot flush firewall rules"),
    (Re.seq Re.wb (Re.seq (rstr "ufw") (Re.seq ws1 (rstr "disable"))),
     "Cannot disable firewall"),
    (Re.seq Re.wb (Re.seq (rstr "sudo") (Re.seq ws1 (Re.seq (rstr "rm") ws1))),
     "Cannot use sudo rm"),
    (Re.seq Re.wb (Re.seq (rstr "sudo") (Re.seq ws1 (Re.seq (rstr "chmod") ws1))),
     "Cannot use sudo chmod"),
    (Re.seq Re.wb (Re.seq (rstr "sudo") (Re.seq ws1 (Re.seq (rstr "chown") ws1))),
     "Cannot use sudo chown"),
    (Re.seq Re.wb (Re.seq (rstr "chmod") (Re.seq ws1 (Re.seq (Re.lit '-')
       (Re.seq (Re.cls rOnlyC) (Re.seq ws1 (Re.lit '/')))))),
     "Cannot recursive chmod from root"),
    (Re.seq Re.wb (Re.seq (rstr "chown") (Re.seq ws1 (Re.seq (Re.lit '-')
       (Re.seq (Re.cls rOnlyC) (Re.seq ws1 (Re.lit '/')))))),
     "Cannot recursive chown from root"),
    (Re.seq Re.wb (Re.seq (rstr "find") (Re.seq ws1 (Re.seq (Re.lit '/')
       (Re.seq ws1 (Re.seq dotStar (rstr "-delete")))))),
     "Cannot use find / with -delete"),
    (Re.seq Re.wb (Re.seq (rstr "find") (Re.seq ws1 (Re.seq (Re.lit '/')
       (Re.seq ws1 (Re.seq dotStar (Re.seq (rstr "-exec") (Re.seq ws1 (rstr "rm")))))))),
     "Cannot use find / with -exec rm") ]

/-- Table `BASH_WRITE_PATTERNS` from the source: redirection, append and tee
with their operation-kind descriptions. -/
def BASH_WRITE_PATTERNS : List (Re × String) :=
  [ (Re.seq (Re.lit '>') (Re.seq ws0 (tokGrp 1)), "redirect output"),
    (Re.seq (Re.lit '>') (Re.seq (Re.lit '>') (Re.seq ws0 (tokGrp 1))), "append output"),
    (Re.seq Re.wb (Re.seq (rstr "tee") (Re.seq ws1 (Re.seq
       (Re.opt (Re.seq (Re.lit '-') (Re.seq (Re.lit 'a') ws1))) (tokGrp 1)))), "tee") ]

/-- Table `BASH_COPY_PATTERNS` from the source: `cp`/`mv` with a run of short
flag clusters before the two positional arguments. -/
def BASH_COPY_PATTERNS : List Re :=
  [ Re.seq Re.wb (Re.seq (rstr "cp") (Re.seq ws1 (Re.seq
      (Re.star (Re.seq (Re.lit '-') (Re.seq (Re.plus (Re.cls alphaC)) ws1)))
      (Re.seq (tokGrp 1) (Re.seq ws1 (tokGrp 2)))))),
    Re.seq Re.wb (Re.seq (rstr "mv") (Re.seq ws1 (Re.seq
      (Re.star (Re.seq (Re.lit '-') (Re.seq (Re.plus (Re.cls alphaC)) ws1)))
      (Re.seq (tokGrp 1) (Re.seq ws1 (tokGrp 2)))))) ]

/-! ### Command Pattern Matcher (`check_bash_command`) -/

/-- Function `check_bash_command`: first dangerous pattern matching anywhere in the
command wins; otherwise `(False, "")`. -/
def check_bash_command (command : String) : Bool × String :=
  match DANGEROUS_BASH_PATTERNS.find? (fun pr => reSearch pr.1 command) with
  | some pr => (true, pr.2)
  | none => (false, "")

/-! ### Indirect-Write Extractor (`check_bash_write_paths`) -/

/-- All `(description, group 1)` pairs produced by the nested
`for pattern ... for match in re.finditer ...` loops of the source. -/
def writeTargets (command : String) : List (String × String) :=
  BASH_WRITE_PATTERNS.flatMap
    (fun pr => (findIter pr.1 command).map (fun caps => (pr.2, capStr caps 1)))

/-- The loop body of `check_bash_write_paths` over the extracted targets:
skip `/dev/` targets, temp targets and relative targets; deny protected
targets, then targets outside the project. -/
def goWriteTargets (env : Env) (project_root : String) :
    List (String × String) → Bool × String
  | [] => (false, "")
  | (desc, target) :: rest =>
    if startsWithS target "/dev/" then goWriteTargets env project_root rest
    else if startsWithS target "/tmp/" || startsWithS target "/private/tmp/" then
      goWriteTargets env project_root rest
    else if !(startsWithS target "/") then goWriteTargets env project_root rest
    else if (is_protected_path env target).1 then
      (true, "Cannot " ++ desc ++ " to protected path: " ++ target)
    else if is_path_outside_project env target project_root then
      (true, "Cannot " ++ desc ++ " to '" ++ target ++ "' - path is outside project directory")
    else goWriteTargets env project_root rest

/-- Function `check_bash_write_paths`. -/
def check_bash_write_paths (env : Env) (command project_root : String) : Bool × String :=
  goWriteTargets env project_root (writeTargets command)

/-! ### Copy/Move Extractor (`check_bash_copy_operations`) -/

/-- All `(group 1, group 2)` source/destination pairs produced by the
`cp`/`mv` pattern scans of the source. -/
def copyMatches (command : String) : List (String × String) :=
  BASH_COPY_PATTERNS.flatMap
    (fun p => (findIter p command).map (fun caps => (capStr caps 1, capStr caps 2)))

/-- The loop body of `check_bash_copy_operations`: check the source for
leaving the project, then the destination for protection and boundary;
temp paths and relative arguments are skipped. -/
def goCopyPairs (env : Env) (project_root : String) :
    List (String × String) → Bool × String
  | [] => (false, "")
  | (source_path, dest_path) :: rest =>
    let source_expanded := expanduserS env.home source_path
    let dest_expanded := expanduserS env.home dest_path
    let srcDeny : Bool :=
      (startsWithS source_path "~" || startsWithS source_path "/")
      && !(startsWithS source_expanded "/tmp/" || startsWithS source_expanded "/private/tmp/")
      && is_path_outside_project env source_expanded project_root
    if srcDeny then
      (true, "Cannot copy/move from '" ++ source_path ++ "' - source is outside project directory")
    else if (startsWithS dest_path "~" || startsWithS dest_path "/")
        && !(startsWithS dest_expanded "/tmp/" || startsWithS dest_expanded "/private/tmp/") then
      if (is_protected_path env dest_expanded).1 then
        (true, "Cannot copy/move to protected path: " ++ dest_path)
      else if is_path_outside_project env dest_expanded project_root then
        (true, "Cannot copy/move to '" ++ dest_path ++ "' - destination is outside project directory")
      else goCopyPairs env project_root rest
    else goCopyPairs env project_root rest

/-- Function `check_bash_copy_operations`. -/
def check_bash_copy_operations (env : Env) (command project_root : String) : Bool × String :=
  goCopyPairs env project_root (copyMatches command)

/-! ### Decision Dispatcher (`main`) -/

/-- The decoded request envelope: `input_data.get(...)` fields, with
`none` modeling an absent key. -/
structure HookInput where
  tool_name : Option String
  file_path : Option String
  command : Option String
  cwd : Option String

/-- The verdict emitted by the hook: `deny_tool reason` or the neutral
exit of `allow_tool`. -/
inductive Verdict where
  | allow : Verdict
  | deny : String → Verdict
deriving DecidableEq

/-- Python `a or b` over strings/None: the first truthy value. -/
def orTruthy (a : Option String) (b : String) : String :=
  match a with
  | some s => if s = "" then b else s
  | none => b

/-- Python `project_root = env_project_dir or input_data.get("cwd") or os.getcwd()`. -/
def projectRootOf (env : Env) (inp : HookInput) : String :=
  orTruthy env.claudeProjectDir (orTruthy inp.cwd env.cwd)

/-- The decision logic of `main` after envelope decoding: the Write/Edit
branch, then the Bash branch, then the neutral allow. -/
def mainDecision (env : Env) (inp : HookInput) : Verdict :=
  let tool_name := inp.tool_name.getD ""
  let project_root := projectRootOf env inp
  let fileVerdict : Option Verdict :=
    if tool_name = "Write" || tool_name = "Edit" then
      let file_path := inp.file_path.getD ""
      if file_path = "" then some Verdict.allow
      else if (is_protected_path env file_path).1 then
        some (Verdict.deny ("🛡️ BLOCKED: " ++ (is_protected_path env file_path).2))
      else if is_path_outside_project env file_path project_root then
        some (Verdict.deny ("🛡️ BLOCKED: Cannot write to '" ++ file_path
          ++ "' - path is outside project directory '" ++ project_root ++ "'"))
      else none
    else none
  match fileVerdict with
  | some v => v
  | none =>
    if tool_name = "Bash" then
      let command := inp.command.getD ""
      if command = "" then Verdict.allow
      else if (check_bash_command command).1 then
        Verdict.deny ("🛡️ BLOCKED: " ++ (check_bash_command command).2
          ++ "\nCommand: " ++ command)
      else if (check_bash_write_paths env command project_root).1 then
        Verdict.deny ("🛡️ BLOCKED: " ++ (check_bash_write_paths env command project_root).2
          ++ "\nCommand: " ++ command)
      else if (check_bash_copy_operations env command project_root).1 then
        Verdict.deny ("🛡️ BLOCKED: " ++ (check_bash_copy_operations env command project_root).2
          ++ "\nCommand: " ++ command)
      else Verdict.allow
    else Verdict.allow

/-! ### Shared helper lemmas -/

/-- Two strings with the same character data are equal. -/
theorem string_data_inj {a b : String} (h : a.data = b.data) : a = b := by
  cases a
  cases b
  exact congrArg String.mk h

/-- Characterization: `startsWithS` is exactly "some suffix completes the prefix". -/
theorem startsWithS_iff (s pre : String) :
    startsWithS s pre = true ↔ ∃ rest, s = pre ++ rest := by
  unfold startsWithS
  rw [ List.isPrefixOf_iff_prefix]
  constructor
  · rintro ⟨t, ht⟩
    refine ⟨String.mk t, string_data_inj ?_⟩
    simpa using ht.symm
  · rintro ⟨rest, rfl⟩
    exact ⟨rest.data, by simp⟩

/-- Variant: `startsWithS` through a reassociated append: `s` starts with `a ++ "/"`
iff `s` is `a ++ "/" ++ rest` for some `rest`. -/
theorem startsWithS_slash_iff (s a : String) :
    startsWithS s (a ++ "/") = true ↔ ∃ rest, s = a ++ "/" ++ rest :=
  startsWithS_iff s (a ++ "/")

/-- Computing `find?` over a split list returns the pivot when nothing before it
satisfies the predicate and the pivot does. -/
theorem find?_split {α : Type} (p : α → Bool) (l1 l2 : List α) (x : α)
    (h1 : ∀ y ∈ l1, p y = false) (hx : p x = true) :
    (l1 ++ x :: l2).find? p = some x := by
  induction l1 with
  | nil => simpa using List.find?_cons_of_pos _ hx
  | cons a as ih =>
    have ha : p a = false := h1 a (by simp)
    rw [List.cons_append, List.find?_cons_of_neg _ (by simp [ha])]
    exact ih (fun y hy => h1 y (by simp [hy]))

/-- Stability: `expanduser` leaves a path without a leading `~` unchanged. -/
theorem expanduser_no_tilde (home p : String) (h : startsWithS p "~" = false) :
    expanduserS home p = p := by
  unfold expanduserS
  rw [h]
  rfl

/-- The one-root test of the classifier, as a decomposition. -/
theorem protMatch_iff (a pd : String) :
    protMatch a pd = true ↔ a = pd ∨ ∃ rest, a = pd ++ "/" ++ rest := by
  unfold protMatch
  rw [Bool.or_eq_true, beq_iff_eq, startsWithS_slash_iff]
  exact or_comm

/-- Rewriting `is_protected_path` in terms of its resolved path. -/
theorem is_protected_path_eq (env : Env) (p : String) :
    is_protected_path env p =
      (match PROTECTED_DIRECTORIES.find? (fun pd => protMatch (resolveFile env p) pd) with
       | some pd => (true, "Cannot modify files in protected directory: " ++ pd)
       | none => (false, "")) := rfl

/-- Rewriting `is_path_outside_project` in terms of its resolved paths. -/
theorem is_path_outside_project_eq (env : Env) (p root : String) :
    is_path_outside_project env p root =
      (if startsWithS (resolveFile env p) (resolveCfg env ++ "/")
          || resolveFile env p == resolveCfg env then false
       else if startsWithS (resolveFile env p) "/tmp/"
          || startsWithS (resolveFile env p) "/private/tmp/" then false
       else !(startsWithS (resolveFile env p) (abspathS env.cwd root ++ "/"))
          && resolveFile env p != abspathS env.cwd root) := rfl

/-! ### Indirect-write loop lemmas -/

/-- The skip conditions of the write-target loop, in source order:
`/dev/` targets, temp targets, then relative targets. -/
def writeSkip (t : String) : Bool :=
  startsWithS t "/dev/" || startsWithS t "/tmp/" || startsWithS t "/private/tmp/"
    || !(startsWithS t "/")

/-- Whether one extracted target makes the write-target loop deny. -/
def writeBlocks (env : Env) (project_root : String) (e : String × String) : Bool :=
  !(writeSkip e.2) && ((is_protected_path env e.2).1 || is_path_outside_project env e.2 project_root)

/-- The components of a false `writeSkip`: none of the skip conditions
fired, and the target is absolute. -/
theorem writeSkip_false_iff (t : String) :
    writeSkip t = false ↔
      startsWithS t "/dev/" = false ∧ startsWithS t "/tmp/" = false
        ∧ startsWithS t "/private/tmp/" = false ∧ startsWithS t "/" = true := by
  unfold writeSkip
  simp [Bool.or_eq_false_iff, and_assoc]

/-- One unfolding step of the write-target loop on a nonempty list. -/
theorem goWriteTargets_cons (env : Env) (root : String) (d t : String)
    (rest : List (String × String)) :
    goWriteTargets env root ((d, t) :: rest) =
      (if startsWithS t "/dev/" then goWriteTargets env root rest
       else if startsWithS t "/tmp/" || startsWithS t "/private/tmp/" then
         goWriteTargets env root rest
       else if !(startsWithS t "/") then goWriteTargets env root rest
       else if (is_protected_path env t).1 then
         (true, "Cannot " ++ d ++ " to protected path: " ++ t)
       else if is_path_outside_project env t root then
         (true, "Cannot " ++ d ++ " to '" ++ t ++ "' - path is outside project directory")
       else goWriteTargets env root rest) := rfl

/-- A non-blocking head is passed over by the write-target loop. -/
theorem goWriteTargets_pass (env : Env) (root : String) (d t : String)
    (rest : List (String × String)) (h : writeBlocks env root (d, t) = false) :
    goWriteTargets env root ((d, t) :: rest) = goWriteTargets env root rest := by
  rw [goWriteTargets_cons]
  by_cases h1 : startsWithS t "/dev/" = true
  · rw [if_pos h1]
  · rw [if_neg h1]
    by_cases h2 : (startsWithS t "/tmp/" || startsWithS t "/private/tmp/") = true
    · rw [if_pos h2]
    · rw [if_neg h2]
      by_cases h3 : startsWithS t "/" = true
      · have h1' : startsWithS t "/dev/" = false := by simpa using h1
        have h2' : startsWithS t "/tmp/" = false ∧ startsWithS t "/private/tmp/" = false := by
          simpa [Bool.or_eq_true, not_or] using h2
        have hskip : writeSkip t = false := by
          unfold writeSkip
          rw [h1', h2'.1, h2'.2, h3]
          rfl
        unfold writeBlocks at h
        rw [hskip] at h
        simp only [Bool.not_false, Bool.true_and, Bool.or_eq_false_iff] at h
        rw [if_neg (by simp [h3]), if_neg (by simp [h.1]), if_neg (by simp [h.2])]
      · rw [if_pos (by simp only [Bool.not_eq_true] at h3; rw [h3]; rfl)]

/-- A non-skipped protected head makes the write-target loop deny with the
reason naming the operation kind and the target. -/
theorem goWriteTargets_protected (env : Env) (root : String) (d t : String)
    (rest : List (String × String)) (hs : writeSkip t = false)
    (hp : (is_protected_path env t).1 = true) :
    goWriteTargets env root ((d, t) :: rest) =
      (true, "Cannot " ++ d ++ " to protected path: " ++ t) := by
  obtain ⟨h1, h2, h3, h4⟩ := (writeSkip_false_iff t).mp hs
  rw [goWriteTargets_cons]
  rw [if_neg (by simp [h1]), if_neg (by simp [h2, h3]), if_neg (by simp [h4]), if_pos hp]

/-- A non-skipped unprotected head lying outside the project makes the
write-target loop deny citing the project boundary. -/
theorem goWriteTargets_outside (env : Env) (root : String) (d t : String)
    (rest : List (String × String)) (hs : writeSkip t = false)
    (hp : (is_protected_path env t).1 = false)
    (ho : is_path_outside_project env t root = true) :
    goWriteTargets env root ((d, t) :: rest) =
      (true, "Cannot " ++ d ++ " to '" ++ t ++ "' - path is outside project directory") := by
  obtain ⟨h1, h2, h3, h4⟩ := (writeSkip_false_iff t).mp hs
  rw [goWriteTargets_cons]
  rw [if_neg (by simp [h1]), if_neg (by simp [h2, h3]), if_neg (by simp [h4]),
    if_neg (by simp [hp]), if_pos ho]

/-- A blocking entry anywhere in the extracted list forces a denial. -/
theorem goWriteTargets_true_of_mem (env : Env) (root : String) :
    ∀ L : List (String × String), ∀ e ∈ L, writeBlocks env root e = true →
      (goWriteTargets env root L).1 = true := by
  intro L
  induction L with
  | nil => intro e he; cases he
  | cons hd tl ih =>
    intro e he hb
    obtain ⟨d, t⟩ := hd
    by_cases hhd : writeBlocks env root (d, t) = true
    · have hs : writeSkip t = false := by
        unfold writeBlocks at hhd
        simp only [Bool.and_eq_true, Bool.not_eq_true'] at hhd
        exact hhd.1
      have hor : writeSkip t = false
          ∧ ((is_protected_path env t).1 || is_path_outside_project env t root) = true := by
        unfold writeBlocks at hhd
        simpa only [Bool.and_eq_true, Bool.not_eq_true'] using hhd
      by_cases hp : (is_protected_path env t).1 = true
      · rw [goWriteTargets_protected env root d t tl hs hp]
      · have ho : is_path_outside_project env t root = true := by
          rcases Bool.or_eq_true_iff.mp hor.2 with h | h
          · exact absurd h hp
          · exact h
        rw [goWriteTargets_outside env root d t tl hs (by simpa using hp) ho]
    · rw [goWriteTargets_pass env root d t tl (by simpa using hhd)]
      rw [List.mem_cons] at he
      rcases he with he | he
      · rw [he] at hb
        exact absurd hb hhd
      · exact ih e he hb

/-- If the entries before a pivot are all non-blocking, the loop's verdict
on the split list is its verdict on the pivot-headed tail. -/
theorem goWriteTargets_split (env : Env) (root : String) :
    ∀ l1 l2 : List (String × String), (∀ e ∈ l1, writeBlocks env root e = false) →
      goWriteTargets env root (l1 ++ l2) = goWriteTargets env root l2 := by
  intro l1
  induction l1 with
  | nil => intro l2 _; rfl
  | cons hd tl ih =>
    intro l2 h1
    obtain ⟨d, t⟩ := hd
    rw [List.cons_append, goWriteTargets_pass env root d t (tl ++ l2) (h1 _ (by simp))]
    exact ih l2 (fun e he => h1 e (by simp [he]))

/-! ### Concrete scenario environments -/

/-- A representative environment: home `/home/user`, working directory and
project root `/home/user/project`, no environment overrides. -/
def envStd : Env := ⟨"/home/user", "/home/user/project", none, none⟩

/-- The project root used in the concrete scenarios. -/
def rootStd : String := "/home/user/project"

/-- An environment with an explicit configuration-directory override. -/
def envCfg : Env := ⟨"/home/user", "/home/user/project", none, some "/home/user/cfg"⟩

/-- A resolver whose home-directory expansion always raises. -/
def failingResolver : Resolver :=
  { expanduserO := fun _ => none, abspathO := fun p => some p }

/-! ### Claim theorems -/

/-- Claim C2: the Command Pattern Matcher reports each representative
command of the five categories of §4.4 as dangerous with a non-empty
reason, matching case-insensitively over the whole command text, and
reports the benign `ls -la` as not dangerous with an empty reason. -/
theorem claim_C2 :
    ((check_bash_command "rm -rf /").1 = true ∧ (check_bash_command "rm -rf /").2 ≠ "")
    ∧ ((check_bash_command "chmod -R 777 /etc").1 = true
       ∧ (check_bash_command "chmod -R 777 /etc").2 ≠ "")
    ∧ ((check_bash_command "dd of=/dev/sda").1 = true
       ∧ (check_bash_command "dd of=/dev/sda").2 ≠ "")
    ∧ ((check_bash_command "systemctl stop sshd").1 = true
       ∧ (check_bash_command "systemctl stop sshd").2 ≠ "")
    ∧ ((check_bash_command "sudo rm -rf /tmp/x").1 = true
       ∧ (check_bash_command "sudo rm -rf /tmp/x").2 ≠ "")
    ∧ check_bash_command "RM -rF /" = check_bash_command "rm -rf /"
    ∧ check_bash_command "ls -la" = (false, "") := by
  decide

/-- Claim C6: the Indirect-Write Extractor denies `echo hi > /etc/passwd`
(protected target), and does not block `echo hi > ./local.txt` (relative
target) or `cmd > /dev/null` (null-discard target). -/
theorem claim_C6 :
    check_bash_write_paths envStd "echo hi > /etc/passwd" rootStd
      = (true, "Cannot redirect output to protected path: /etc/passwd")
    ∧ check_bash_write_paths envStd "echo hi > ./local.txt" rootStd = (false, "")
    ∧ check_bash_write_paths envStd "cmd > /dev/null" rootStd = (false, "") := by
  decide

/-- Claim C10: the temporary-directory carve-out is strict-descendant only
(`/tmp` and `/private/tmp` themselves are not exempt, in the boundary
checker and in both extractors), while the configuration-directory
carve-out also matches the configuration directory itself exactly. -/
theorem claim_C10 :
    is_path_outside_project envCfg "/tmp" rootStd = true
    ∧ is_path_outside_project envCfg "/private/tmp" rootStd = true
    ∧ is_path_outside_project envCfg "/tmp/report.pdf" rootStd = false
    ∧ is_path_outside_project envCfg "/private/tmp/report.pdf" rootStd = false
    ∧ check_bash_write_paths envCfg "echo x > /tmp" rootStd
        = (true, "Cannot redirect output to '/tmp' - path is outside project directory")
    ∧ check_bash_write_paths envCfg "echo x > /tmp/f" rootStd = (false, "")
    ∧ check_bash_copy_operations envCfg "cp a.txt /tmp" rootStd
        = (true, "Cannot copy/move to '/tmp' - destination is outside project directory")
    ∧ check_bash_copy_operations envCfg "cp a.txt /tmp/b.txt" rootStd = (false, "")
    ∧ is_path_outside_project envCfg "/home/user/cfg" rootStd = false
    ∧ is_path_outside_project envCfg "/home/user/cfg/sub.md" rootStd = false := by
  decide

/-- Claim C1, counterexample: the extractor produces the target `/dev/sda`
for `echo x > /dev/sda`, that target is protected (`/dev` is a protected
root), and it is not the null-discard device — yet the Indirect-Write
Extractor does not deny, because the source skips every `/dev/` target,
not only the null-discard device. -/
theorem claim_C1_counterexample :
    writeTargets "echo x > /dev/sda" = [("redirect output", "/dev/sda")]
    ∧ (is_protected_path envStd "/dev/sda").1 = true
    ∧ ("/dev/sda" : String) ≠ "/dev/null"
    ∧ check_bash_write_paths envStd "echo x > /dev/sda" rootStd = (false, "") := by
  decide

/-- Claim C1 (amended): for every extracted redirection/append/tee target
that is an absolute path, does not begin with `/dev/` (the source skips
every device path, not only the null-discard device), and does not lie
under a standard temporary-directory root, the Protected-Path Classifier
is applied: a protected target yields a denial, and when the preceding
extracted targets are non-blocking the denial's reason names the
operation kind and the target. A command redirecting to the protected
device path `/dev/sda` is, however, not denied. -/
theorem claim_C1_amended :
    (∀ (env : Env) (root cmd d t : String),
       (d, t) ∈ writeTargets cmd → writeSkip t = false →
       (is_protected_path env t).1 = true →
       (check_bash_write_paths env cmd root).1 = true)
    ∧ (∀ (env : Env) (root cmd d t : String) (l1 l2 : List (String × String)),
       writeTargets cmd = l1 ++ (d, t) :: l2 →
       (∀ e ∈ l1, writeBlocks env root e = false) →
       writeSkip t = false →
       (is_protected_path env t).1 = true →
       check_bash_write_paths env cmd root
         = (true, "Cannot " ++ d ++ " to protected path: " ++ t))
    ∧ check_bash_write_paths envStd "echo x > /dev/sda" rootStd = (false, "") := by
  refine ⟨?_, ?_, by decide⟩
  · intro env root cmd d t hmem hs hp
    unfold check_bash_write_paths
    exact goWriteTargets_true_of_mem env root (writeTargets cmd) (d, t) hmem
      (by unfold writeBlocks; rw [hs, hp]; rfl)
  · intro env root cmd d t l1 l2 hsplit h1 hs hp
    unfold check_bash_write_paths
    rw [hsplit, goWriteTargets_split env root l1 _ h1,
      goWriteTargets_protected env root d t l2 hs hp]

/-- Claim C1, witness: the amended theorem applied to
`echo hi >> /etc/shadow`, whose first extracted target `/etc/shadow` is
absolute, not under `/dev/` or a temp root, and protected. -/
theorem claim_C1_witness :
    check_bash_write_paths envStd "echo hi >> /etc/shadow" rootStd
      = (true, "Cannot redirect output to protected path: /etc/shadow") :=
  claim_C1_amended.2.1 envStd rootStd "echo hi >> /etc/shadow" "redirect output" "/etc/shadow"
    [] [("append output", "/etc/shadow")] (by decide)
    (by intro e he; cases he) (by decide) (by decide)

/-- Claim C9: when path resolution raises inside either boundary
predicate — the home-directory expansion fails, or the subsequent
absolute-path normalization fails — the predicates fail open:
the classifier returns not-protected with an empty reason and the
boundary checker returns false, so neither can cause a denial. -/
theorem claim_C9 (R : Resolver) (cfgEnv : Option String) (fp pr : String)
    (h : R.expanduserO fp = none
         ∨ ∃ e, R.expanduserO fp = some e ∧ R.abspathO e = none) :
    is_protected_pathR R fp = (false, "")
    ∧ is_path_outside_projectR R cfgEnv fp pr = false := by
  rcases h with h | ⟨e, he, ha⟩
  · constructor
    · unfold is_protected_pathR
      rw [h]
      rfl
    · unfold is_path_outside_projectR
      rw [h]
      rfl
  · constructor
    · unfold is_protected_pathR
      rw [he]
      show (match R.abspathO e >>= pure with
            | none => (false, "")
            | some abs_path => _) = (false, "")
      rw [ha]
      rfl
    · unfold is_path_outside_projectR
      rw [he]
      show (match R.abspathO e >>= _ with
            | none => false
            | some b => b) = false
      rw [ha]
      rfl

/-- Claim C9, witness: a resolver whose expansion step always raises makes
both predicates fail open on a concrete input. -/
theorem claim_C9_witness :
    is_protected_pathR failingResolver "/etc/passwd" = (false, "")
    ∧ is_path_outside_projectR failingResolver none "/etc/passwd" "/home/user/project" = false :=
  claim_C9 failingResolver none "/etc/passwd" "/home/user/project" (Or.inl rfl)

/-- Claim C7: for every command-operation request with a non-empty
command, the dispatcher's verdict is the cascade Command Pattern Matcher,
then Indirect-Write Extractor, then Copy/Move Extractor, emitting the
first denial; in particular, on `echo x > /etc/passwd`, where both the
pattern matcher and the write extractor would deny, the emitted reason is
the pattern matcher's. -/
theorem claim_C7 :
    (∀ (env : Env) (inp : HookInput) (cmd : String),
       inp.tool_name = some "Bash" → inp.command = some cmd → cmd ≠ "" →
       mainDecision env inp =
         (if (check_bash_command cmd).1 then
            Verdict.deny ("🛡️ BLOCKED: " ++ (check_bash_command cmd).2
              ++ "\nCommand: " ++ cmd)
          else if (check_bash_write_paths env cmd (projectRootOf env inp)).1 then
            Verdict.deny ("🛡️ BLOCKED: "
              ++ (check_bash_write_paths env cmd (projectRootOf env inp)).2
              ++ "\nCommand: " ++ cmd)
          else if (check_bash_copy_operations env cmd (projectRootOf env inp)).1 then
            Verdict.deny ("🛡️ BLOCKED: "
              ++ (check_bash_copy_operations env cmd (projectRootOf env inp)).2
              ++ "\nCommand: " ++ cmd)
          else Verdict.allow))
    ∧ (check_bash_command "echo x > /etc/passwd").1 = true
    ∧ (check_bash_write_paths envStd "echo x > /etc/passwd" rootStd).1 = true
    ∧ mainDecision envStd ⟨some "Bash", none, some "echo x > /etc/passwd", some rootStd⟩
        = Verdict.deny ("🛡️ BLOCKED: Cannot redirect output to /etc/\nCommand: echo x > /etc/passwd") := by
  refine ⟨?_, by decide, by decide, by decide⟩
  intro env inp cmd ht hc hne
  unfold mainDecision
  rw [ht, hc]
  simp only [Option.getD_some]
  rw [if_neg (by decide), if_neg hne]
  rfl

/-- Claim C8: a file operation with an empty or missing path yields Allow,
a command operation with an empty or missing command yields Allow, and a
request whose kind is neither Write/Edit nor Bash yields Allow. -/
theorem claim_C8 :
    (∀ (env : Env) (inp : HookInput),
       (inp.tool_name.getD "" = "Write" ∨ inp.tool_name.getD "" = "Edit") →
       inp.file_path.getD "" = "" → mainDecision env inp = Verdict.allow)
    ∧ (∀ (env : Env) (inp : HookInput),
       inp.tool_name.getD "" = "Bash" → inp.command.getD "" = "" →
       mainDecision env inp = Verdict.allow)
    ∧ (∀ (env : Env) (inp : HookInput),
       inp.tool_name.getD "" ≠ "Write" → inp.tool_name.getD "" ≠ "Edit" →
       inp.tool_name.getD "" ≠ "Bash" → mainDecision env inp = Verdict.allow) := by
  refine ⟨?_, ?_, ?_⟩
  · intro env inp htool hpath
    simp only [mainDecision]
    rw [if_pos (by rcases htool with h | h <;> simp [h]), if_pos hpath]
  · intro env inp htool hcmd
    simp only [mainDecision]
    rw [if_neg (by simp [htool]), if_pos htool, if_pos hcmd]
  · intro env inp h1 h2 h3
    simp only [mainDecision]
    rw [if_neg (by simp [h1, h2]), if_neg h3]

/-- Claim C8, witness: the three Allow cases at concrete inputs — an
unknown tool kind, a Write with a missing path, and a Bash with an empty
command. -/
theorem claim_C8_witness :
    mainDecision envStd ⟨some "Glob", some "/etc/passwd", some "rm -rf /", none⟩ = Verdict.allow
    ∧ mainDecision envStd ⟨some "Write", none, none, none⟩ = Verdict.allow
    ∧ mainDecision envStd ⟨some "Bash", none, some "", none⟩ = Verdict.allow :=
  ⟨claim_C8.2.2 envStd _ (by decide) (by decide) (by decide),
   claim_C8.1 envStd _ (Or.inl rfl) rfl,
   claim_C8.2.1 envStd _ rfl rfl⟩

/-- The path segments of a POSIX path: its nonempty slash-separated
components. Used to state segment-wise nesting independently of the
string-prefix tests of the source. -/
def pathComps (p : String) : List String :=
  (splitOnChar '/' p).filter (fun c => c ≠ "")

/-- Claim C3, counterexample: with project root `/`, the path `/etc`
resolves strictly under the root in the path-segment sense and lies under
neither carve-out, yet the Project-Boundary Checker reports it outside
(the source's `root + "/"` prefix test cannot match when the root is `/`). -/
theorem claim_C3_counterexample :
    abspathS envStd.cwd "/" = "/"
    ∧ resolveFile envStd "/etc" = "/etc"
    ∧ (pathComps "/").isPrefixOf (pathComps "/etc") = true
    ∧ startsWithS (resolveFile envStd "/etc") (resolveCfg envStd ++ "/") = false
    ∧ resolveFile envStd "/etc" ≠ resolveCfg envStd
    ∧ startsWithS (resolveFile envStd "/etc") "/tmp/" = false
    ∧ startsWithS (resolveFile envStd "/etc") "/private/tmp/" = false
    ∧ is_path_outside_project envStd "/etc" "/" = true := by
  decide

/-- Claim C3 (amended): the Project-Boundary Checker returns false exactly
when the resolved path is the configuration carve-out or nested under it,
begins with `/tmp/` or `/private/tmp/`, or equals the resolved project
root or extends it past a `/` separator — where the last condition is the
source's string test, so for the project root `/` only `/` itself counts
as inside (segment-nesting under the root `/` does not suffice). -/
theorem claim_C3_amended (env : Env) (P root : String) :
    is_path_outside_project env P root = false ↔
      (resolveFile env P = resolveCfg env
        ∨ ∃ rest, resolveFile env P = resolveCfg env ++ "/" ++ rest)
      ∨ ((∃ rest, resolveFile env P = "/tmp/" ++ rest)
        ∨ (∃ rest, resolveFile env P = "/private/tmp/" ++ rest))
      ∨ (resolveFile env P = abspathS env.cwd root
        ∨ ∃ rest, resolveFile env P = abspathS env.cwd root ++ "/" ++ rest) := by
  rw [is_path_outside_project_eq]
  set f := resolveFile env P with hf
  set cfg := resolveCfg env with hcfg
  set r := abspathS env.cwd root with hr
  by_cases h1 : (startsWithS f (cfg ++ "/") || f == cfg) = true
  · rw [if_pos h1]
    constructor
    · intro _
      left
      rcases Bool.or_eq_true_iff.mp h1 with h | h
      · exact Or.inr ((startsWithS_slash_iff f cfg).mp h)
      · exact Or.inl (beq_iff_eq.mp h)
    · intro _
      rfl
  · rw [if_neg h1]
    have hne1 : ¬(f = cfg ∨ ∃ rest, f = cfg ++ "/" ++ rest) := by
      rintro (h | h)
      · exact h1 (by rw [Bool.or_eq_true_iff]; exact Or.inr (beq_iff_eq.mpr h))
      · exact h1 (by rw [Bool.or_eq_true_iff]; exact Or.inl ((startsWithS_slash_iff f cfg).mpr h))
    by_cases h2 : (startsWithS f "/tmp/" || startsWithS f "/private/tmp/") = true
    · rw [if_pos h2]
      constructor
      · intro _
        refine Or.inr (Or.inl ?_)
        rcases Bool.or_eq_true_iff.mp h2 with h | h
        · exact Or.inl ((startsWithS_iff f "/tmp/").mp h)
        · exact Or.inr ((startsWithS_iff f "/private/tmp/").mp h)
      · intro _
        rfl
    · rw [if_neg h2]
      have hne2 : ¬((∃ rest, f = "/tmp/" ++ rest) ∨ (∃ rest, f = "/private/tmp/" ++ rest)) := by
        rintro (h | h)
        · exact h2 (by rw [Bool.or_eq_true_iff]; exact Or.inl ((startsWithS_iff f "/tmp/").mpr h))
        · exact h2 (by rw [Bool.or_eq_true_iff]; exact Or.inr ((startsWithS_iff f "/private/tmp/").mpr h))
      have hL : (!(startsWithS f (r ++ "/")) && f != r) = false
          ↔ (startsWithS f (r ++ "/") = true ∨ f = r) := by
        cases hsw : startsWithS f (r ++ "/") <;> by_cases heq : f = r <;> simp [hsw, heq]
      rw [hL]
      constructor
      · rintro (h | h)
        · exact Or.inr (Or.inr (Or.inr ((startsWithS_slash_iff f r).mp h)))
        · exact Or.inr (Or.inr (Or.inl h))
      · rintro (h | h | h)
        · exact absurd h hne1
        · exact absurd h hne2
        · rcases h with h | h
          · exact Or.inr h
          · exact Or.inl ((startsWithS_slash_iff f r).mpr h)

/-- Claim C3, witness: a path strictly under the project root is inside,
by the nesting direction of the amended equivalence. -/
theorem claim_C3_witness :
    is_path_outside_project envStd "/home/user/project/src/main.go" rootStd = false :=
  (claim_C3_amended envStd "/home/user/project/src/main.go" rootStd).mpr
    (Or.inr (Or.inr (Or.inr ⟨"src/main.go", by decide⟩)))

/-- Claim C4: the Protected-Path Classifier reports a path protected
exactly when its resolution equals a protected root or extends one past a
`/` separator (so string-prefix siblings such as `/usrlocal` for `/usr`
or `/variant/x` for `/var` are not protected), and when the matching root
is the first matching entry of the fixed list the reason names it. -/
theorem claim_C4 (env : Env) (P : String) :
    ((is_protected_path env P).1 = true ↔
      ∃ pd ∈ PROTECTED_DIRECTORIES,
        resolveFile env P = pd ∨ ∃ rest, resolveFile env P = pd ++ "/" ++ rest)
    ∧ (∀ (l1 : List String) (pd : String) (l2 : List String),
        PROTECTED_DIRECTORIES = l1 ++ pd :: l2 →
        (∀ q ∈ l1, ¬(resolveFile env P = q ∨ ∃ rest, resolveFile env P = q ++ "/" ++ rest)) →
        (resolveFile env P = pd ∨ ∃ rest, resolveFile env P = pd ++ "/" ++ rest) →
        is_protected_path env P
          = (true, "Cannot modify files in protected directory: " ++ pd)) := by
  constructor
  · constructor
    · intro h
      rw [is_protected_path_eq] at h
      cases hfind : PROTECTED_DIRECTORIES.find? (fun pd => protMatch (resolveFile env P) pd) with
      | none => rw [hfind] at h; simp at h
      | some pd =>
        exact ⟨pd, List.mem_of_find?_eq_some hfind,
          (protMatch_iff (resolveFile env P) pd).mp (List.find?_some hfind)⟩
    · rintro ⟨pd, hmem, hdec⟩
      rw [is_protected_path_eq]
      have hsome : (PROTECTED_DIRECTORIES.find?
          (fun pd => protMatch (resolveFile env P) pd)).isSome := by
        rw [List.find?_isSome]
        exact ⟨pd, hmem, (protMatch_iff (resolveFile env P) pd).mpr hdec⟩
      cases hfind : PROTECTED_DIRECTORIES.find? (fun pd => protMatch (resolveFile env P) pd) with
      | none => rw [hfind] at hsome; simp at hsome
      | some q => rfl
  · intro l1 pd l2 hsplit hneg hdec
    rw [is_protected_path_eq, hsplit]
    rw [find?_split (fun q => protMatch (resolveFile env P) q) l1 l2 pd ?_
      ((protMatch_iff (resolveFile env P) pd).mpr hdec)]
    intro q hq
    cases hpm : protMatch (resolveFile env P) q with
    | false => exact hpm
    | true => exact absurd ((protMatch_iff (resolveFile env P) q).mp hpm) (hneg q hq)

/-- Claim C4, witness: `/etc/passwd` is protected with the reason naming
`/etc`, the first (and only) matching root. -/
theorem claim_C4_witness :
    is_protected_path envStd "/etc/passwd"
      = (true, "Cannot modify files in protected directory: " ++ "/etc") :=
  (claim_C4 envStd "/etc/passwd").2 []
    "/etc" ["/usr", "/var", "/bin", "/sbin", "/lib", "/lib64", "/boot",
      "/sys", "/proc", "/dev", "/root", "/System", "/Library", "/Applications"]
    rfl (by intro q hq; cases hq) (Or.inr ⟨"passwd", by decide⟩)

/-- One unfolding step of the copy/move loop on a nonempty list. -/
theorem goCopyPairs_cons (env : Env) (root src dst : String)
    (rest : List (String × String)) :
    goCopyPairs env root ((src, dst) :: rest) =
      (if (startsWithS src "~" || startsWithS src "/")
          && !(startsWithS (expanduserS env.home src) "/tmp/"
               || startsWithS (expanduserS env.home src) "/private/tmp/")
          && is_path_outside_project env (expanduserS env.home src) root then
        (true, "Cannot copy/move from '" ++ src ++ "' - source is outside project directory")
       else if (startsWithS dst "~" || startsWithS dst "/")
          && !(startsWithS (expanduserS env.home dst) "/tmp/"
               || startsWithS (expanduserS env.home dst) "/private/tmp/") then
         if (is_protected_path env (expanduserS env.home dst)).1 then
           (true, "Cannot copy/move to protected path: " ++ dst)
         else if is_path_outside_project env (expanduserS env.home dst) root then
           (true, "Cannot copy/move to '" ++ dst ++ "' - destination is outside project directory")
         else goCopyPairs env root rest
       else goCopyPairs env root rest) := rfl

/-- Claim C5: the Copy/Move Extractor denies
`cp /home/user/.ssh/id_rsa ./stolen` whenever that absolute source is
outside the project root and carve-outs, citing the source; it denies
`mv ./a.txt /etc/a.txt` for the protected destination; it does not block
`cp a.txt b.txt` (both arguments relative); and the end-to-end verdict on
`cp report.pdf /tmp/report.pdf` is Allow (temp destination exempt). -/
theorem claim_C5 :
    (∀ (env : Env) (root : String),
       is_path_outside_project env "/home/user/.ssh/id_rsa" root = true →
       check_bash_copy_operations env "cp /home/user/.ssh/id_rsa ./stolen" root
         = (true, "Cannot copy/move from '/home/user/.ssh/id_rsa' - source is outside project directory"))
    ∧ check_bash_copy_operations envStd "mv ./a.txt /etc/a.txt" rootStd
        = (true, "Cannot copy/move to protected path: /etc/a.txt")
    ∧ check_bash_copy_operations envStd "cp a.txt b.txt" rootStd = (false, "")
    ∧ mainDecision envStd ⟨some "Bash", none, some "cp report.pdf /tmp/report.pdf", some rootStd⟩
        = Verdict.allow := by
  refine ⟨?_, by decide, by decide, by decide⟩
  intro env root h
  unfold check_bash_copy_operations
  have hcm : copyMatches "cp /home/user/.ssh/id_rsa ./stolen"
      = [("/home/user/.ssh/id_rsa", "./stolen")] := by decide
  rw [hcm, goCopyPairs_cons,
    expanduser_no_tilde env.home "/home/user/.ssh/id_rsa" (by decide)]
  rw [if_pos (by rw [h]; decide)]
  decide

/-- Claim C5, witness: under the representative environment, the source
`/home/user/.ssh/id_rsa` is outside the project, so the copy is denied. -/
theorem claim_C5_witness :
    check_bash_copy_operations envStd "cp /home/user/.ssh/id_rsa ./stolen" rootStd
      = (true, "Cannot copy/move from '/home/user/.ssh/id_rsa' - source is outside project directory") :=
  claim_C5.1 envStd rootStd (by decide)

end SafeOps
